import Mathlib

/-!
Verification of the core logic of a peptide-dashboard single-page app:
the schedule/due-date resolver and the dose/concentration calculator,
shallowly embedded from the JavaScript source (`src/App.jsx`, with the
unnamed variant files where the claims reference them).

Modelling conventions:
* JavaScript numbers are modelled as exact rationals (`ℚ`); the spec's
  §4.2 algorithm is stated over ideal decimal arithmetic.
* A raw text field that is fed through `parseFloat` is modelled as
  `Option ℚ`: `none` is a blank/unparseable field (`parseFloat` gives
  `NaN`), `some v` is a successful parse. `parseFloat(x) || 0` maps
  `NaN` to `0` (and leaves every other number unchanged, since `0 || 0`
  is `0` as well); this is `jsNum` below.
* Calendar dates are year/month/day triples. `Date.UTC(y, m0, d)` is
  `86400000 *` the proleptic-Gregorian day number of the date (month
  `m0` is 0-based in JS; our `CDate.month` is the human 1..12 month).
* The JS `%` operator is truncated remainder, i.e. `Int.tmod` (JS
  `-0 === 0`, so comparing the remainder with `0` is unaffected).
-/

/-! ### JS numeric field parsing -/

/-- Model of `parseFloat(field) || 0`: a blank or unparseable field
(`none`, i.e. `NaN`) becomes `0`; a parsed number passes through. -/
def jsNum : Option ℚ → ℚ
  | none => 0
  | some v => v

/-! ### Dose / concentration calculator (`derived` in `App.jsx`, lines 213-239) -/

/-- One calculator row: `{ id, name, vialMg, reconMl }`. The two numeric
fields hold the `parseFloat` result of the raw text inputs. -/
structure Peptide where
  id : String
  name : String
  vialMg : Option ℚ
  reconMl : Option ℚ
deriving DecidableEq

/-- The dose input `{ mg, iu }` (enter either mg OR IU). -/
structure DoseInput where
  mg : Option ℚ
  iu : Option ℚ
deriving DecidableEq

/-- The calculator state `calc = { peptides, dose }`. -/
structure CalcState where
  peptides : List Peptide
  dose : DoseInput
deriving DecidableEq

/-- A row augmented with its parsed numbers, mirroring
`calc.peptides.map(p => ({ ...p, vialMgNum, reconMlNum }))`. -/
structure PepN where
  p : Peptide
  vialMgNum : ℚ
  reconMlNum : ℚ
deriving DecidableEq

/-- `const pep = calc.peptides.map(p => ({...p, vialMgNum: parseFloat(p.vialMg)||0, reconMlNum: parseFloat(p.reconMl)||0}))` -/
def pepN (c : CalcState) : List PepN :=
  c.peptides.map fun p => { p := p, vialMgNum := jsNum p.vialMg, reconMlNum := jsNum p.reconMl }

/-- `const totalVialMg = pep.reduce((s, p) => s + p.vialMgNum, 0)` -/
def totalVialMg (c : CalcState) : ℚ :=
  (pepN c).foldl (fun s q => s + q.vialMgNum) 0

/-- `const totalReconMl = pep.reduce((s, p) => s + p.reconMlNum, 0)` -/
def totalReconMl (c : CalcState) : ℚ :=
  (pepN c).foldl (fun s q => s + q.reconMlNum) 0

/-- `const mgPerMl = totalReconMl > 0 ? totalVialMg / totalReconMl : 0` (blend concentration) -/
def mgPerMl (c : CalcState) : ℚ :=
  if totalReconMl c > 0 then totalVialMg c / totalReconMl c else 0

/-- `const mgPerIU = mgPerMl / 100` (U-100 syringe) -/
def mgPerIU (c : CalcState) : ℚ := mgPerMl c / 100

/-- `const iuPerMg = mgPerIU > 0 ? 1 / mgPerIU : 0` -/
def iuPerMg (c : CalcState) : ℚ :=
  if mgPerIU c > 0 then 1 / mgPerIU c else 0

/-- `const doseMg = parseFloat(calc.dose.mg) || 0` -/
def doseMg (c : CalcState) : ℚ := jsNum c.dose.mg

/-- `const doseIU = parseFloat(calc.dose.iu) || 0` -/
def doseIU (c : CalcState) : ℚ := jsNum c.dose.iu

/-- `const totalDoseMg = doseMg > 0 ? doseMg : doseIU > 0 ? (doseIU / 100) * mgPerMl : 0` -/
def totalDoseMg (c : CalcState) : ℚ :=
  if doseMg c > 0 then doseMg c
  else if doseIU c > 0 then doseIU c / 100 * mgPerMl c
  else 0

/-- `const drawMlFromMg = mgPerMl > 0 ? totalDoseMg / mgPerMl : 0` -/
def drawMlFromMg (c : CalcState) : ℚ :=
  if mgPerMl c > 0 then totalDoseMg c / mgPerMl c else 0

/-- `const iuFromMg = drawMlFromMg * 100` -/
def iuFromMg (c : CalcState) : ℚ := drawMlFromMg c * 100

/-- One entry of `perPeptide`. -/
structure PerPeptide where
  id : String
  name : String
  share : ℚ
  mgInDose : ℚ
deriving DecidableEq

/-- `const perPeptide = pep.map(p => { const share = totalVialMg > 0 ? p.vialMgNum / totalVialMg : 0; const mgInDose = totalDoseMg * share; return { id, name: p.name || ..., share, mgInDose } })` -/
def perPeptide (c : CalcState) : List PerPeptide :=
  (pepN c).map fun q =>
    let share := if totalVialMg c > 0 then q.vialMgNum / totalVialMg c else 0
    { id := q.p.id
      name := if q.p.name = "" then "Peptide " ++ q.p.id.toUpper else q.p.name
      share := share
      mgInDose := totalDoseMg c * share }

/-- The full record returned by the `derived` memo. -/
structure Derived where
  totalVialMg : ℚ
  totalReconMl : ℚ
  mgPerMl : ℚ
  mgPerIU : ℚ
  iuPerMg : ℚ
  totalDoseMg : ℚ
  drawMlFromMg : ℚ
  iuFromMg : ℚ
  perPeptide : List PerPeptide
deriving DecidableEq

/-- `return { totalVialMg, totalReconMl, mgPerMl, mgPerIU, iuPerMg, totalDoseMg, drawMlFromMg, iuFromMg, perPeptide }` -/
def derived (c : CalcState) : Derived :=
  { totalVialMg := totalVialMg c
    totalReconMl := totalReconMl c
    mgPerMl := mgPerMl c
    mgPerIU := mgPerIU c
    iuPerMg := iuPerMg c
    totalDoseMg := totalDoseMg c
    drawMlFromMg := drawMlFromMg c
    iuFromMg := iuFromMg c
    perPeptide := perPeptide c }

/-- The spec's §8 example blend: A = 5 mg in 2 mL, B = 5 mg in 2 mL,
dose entered as 0.5 mg. -/
def exampleMassDose : CalcState :=
  { peptides :=
      [ { id := "p1", name := "A", vialMg := some 5, reconMl := some 2 }
      , { id := "p2", name := "B", vialMg := some 5, reconMl := some 2 } ]
    dose := { mg := some (1/2), iu := none } }

/-- C1: for the two-component example A = 5 mg / 2 mL and B = 5 mg / 2 mL
with the dose given as 0.5 mg, the derived metrics are
totalDryMassMg = 10, totalVolumeMl = 4, concentration = 2.5 mg/mL,
massPerUnit = 0.025, unitsPerMg = 40, drawVolumeMl = 0.2,
drawUnits = 20, and each component has share 0.5 and massInDose 0.25. -/
theorem calc_example_mass_dose :
    (derived exampleMassDose).totalVialMg = 10 ∧
    (derived exampleMassDose).totalReconMl = 4 ∧
    (derived exampleMassDose).mgPerMl = 5/2 ∧
    (derived exampleMassDose).mgPerIU = 1/40 ∧
    (derived exampleMassDose).iuPerMg = 40 ∧
    (derived exampleMassDose).totalDoseMg = 1/2 ∧
    (derived exampleMassDose).drawMlFromMg = 1/5 ∧
    (derived exampleMassDose).iuFromMg = 20 ∧
    (derived exampleMassDose).perPeptide.map (fun q => (q.share, q.mgInDose)) =
      [(1/2, 1/4), (1/2, 1/4)] := by
  norm_num [derived, totalVialMg, totalReconMl, mgPerMl, mgPerIU, iuPerMg,
    totalDoseMg, doseMg, doseIU, drawMlFromMg, iuFromMg, perPeptide, pepN,
    jsNum, exampleMassDose]

/-- C5: resolution of the total dose mass. Mass input wins whenever it is
positive; otherwise a positive IU input is converted through the blend
concentration; otherwise the dose is 0. -/
theorem totalDoseMg_resolution (c : CalcState) :
    (0 < doseMg c → totalDoseMg c = doseMg c) ∧
    (doseMg c ≤ 0 → 0 < doseIU c → totalDoseMg c = doseIU c / 100 * mgPerMl c) ∧
    (doseMg c ≤ 0 → doseIU c ≤ 0 → totalDoseMg c = 0) := by
  unfold totalDoseMg
  refine ⟨fun h => if_pos h, fun h1 h2 => ?_, fun h1 h2 => ?_⟩
  · rw [if_neg (not_lt.mpr h1), if_pos h2]
  · rw [if_neg (not_lt.mpr h1), if_neg (not_lt.mpr h2)]

/-- Witness for C5: on the §8 example state the mass input is positive and
is used directly as the total dose. -/
theorem totalDoseMg_resolution_w :
    totalDoseMg exampleMassDose = doseMg exampleMassDose :=
  (totalDoseMg_resolution exampleMassDose).1
    (by norm_num [doseMg, jsNum, exampleMassDose])

/-- When every row's parsed reconstitution volume is `0`, the summed total
volume is `0`. -/
theorem totalReconMl_eq_zero (c : CalcState)
    (h : ∀ p ∈ c.peptides, jsNum p.reconMl = 0) : totalReconMl c = 0 := by
  unfold totalReconMl pepN
  have key : ∀ (l : List Peptide) (a : ℚ), (∀ p ∈ l, jsNum p.reconMl = 0) →
      (l.map fun p =>
        ({ p := p, vialMgNum := jsNum p.vialMg, reconMlNum := jsNum p.reconMl } : PepN)).foldl
        (fun s q => s + q.reconMlNum) a = a := by
    intro l
    induction l with
    | nil => intro a _; rfl
    | cons p l ih =>
      intro a h
      simp only [List.map_cons, List.foldl_cons]
      rw [h p (by simp), add_zero]
      exact ih a fun q hq => h q (by simp [hq])
  exact key c.peptides 0 h

/-- C6 (amended): when every component's reconstitution volume parses to `0`,
the concentration is `0` and each derived field that divides by the
concentration (massPerUnit, unitsPerMg, drawVolumeMl, drawUnits) is exactly
`0`; per-component shares are guarded by the total dry mass instead and need
not be `0`. -/
theorem zero_volume_guards (c : CalcState)
    (h : ∀ p ∈ c.peptides, jsNum p.reconMl = 0) :
    mgPerMl c = 0 ∧ mgPerIU c = 0 ∧ iuPerMg c = 0 ∧
    drawMlFromMg c = 0 ∧ iuFromMg c = 0 := by
  have hr : totalReconMl c = 0 := totalReconMl_eq_zero c h
  have h1 : mgPerMl c = 0 := by unfold mgPerMl; rw [hr]; simp
  have h2 : mgPerIU c = 0 := by unfold mgPerIU; rw [h1]; norm_num
  have h3 : iuPerMg c = 0 := by unfold iuPerMg; rw [h2]; simp
  have h4 : drawMlFromMg c = 0 := by unfold drawMlFromMg; rw [h1]; simp
  have h5 : iuFromMg c = 0 := by unfold iuFromMg; rw [h4]; simp
  exact ⟨h1, h2, h3, h4, h5⟩

/-- Two 5 mg components reconstituted with 0 mL each, dose entered as 0.5 mg:
the degenerate-volume state used to refute the original share clause of C6. -/
def zeroVolumeBlend : CalcState :=
  { peptides :=
      [ { id := "p1", name := "A", vialMg := some 5, reconMl := some 0 }
      , { id := "p2", name := "B", vialMg := some 5, reconMl := some 0 } ]
    dose := { mg := some (1/2), iu := none } }

/-- C6 counterexample: on `zeroVolumeBlend` every reconstitution volume
parses to `0`, yet the per-component shares are `[1/2, 1/2]`, not `0`:
the share divides by the total dry mass (10 mg here), not by the
concentration, so the claim's share clause fails. -/
theorem zero_volume_share_cex :
    (∀ p ∈ zeroVolumeBlend.peptides, jsNum p.reconMl = 0) ∧
    (perPeptide zeroVolumeBlend).map (fun q => q.share) = [1/2, 1/2] ∧
    ((1 : ℚ)/2 ≠ 0) := by
  refine ⟨?_, ?_, by norm_num⟩
  · intro p hp
    simp only [zeroVolumeBlend, List.mem_cons, List.not_mem_nil, or_false] at hp
    rcases hp with h | h <;> subst h <;> rfl
  · norm_num [perPeptide, pepN, totalVialMg, totalDoseMg, doseMg, doseIU,
      mgPerMl, totalReconMl, jsNum, zeroVolumeBlend]

/-- Witness for C6 (amended): applied to `zeroVolumeBlend`. -/
theorem zero_volume_guards_w :
    mgPerMl zeroVolumeBlend = 0 ∧ mgPerIU zeroVolumeBlend = 0 ∧
    iuPerMg zeroVolumeBlend = 0 ∧ drawMlFromMg zeroVolumeBlend = 0 ∧
    iuFromMg zeroVolumeBlend = 0 :=
  zero_volume_guards zeroVolumeBlend (by
    intro p hp
    simp only [zeroVolumeBlend, List.mem_cons, List.not_mem_nil, or_false] at hp
    rcases hp with h | h <;> subst h <;> rfl)

/-- The §8 example blend with the dose entered as 10 syringe units instead. -/
def exampleUnitDose : CalcState :=
  { peptides :=
      [ { id := "p1", name := "A", vialMg := some 5, reconMl := some 2 }
      , { id := "p2", name := "B", vialMg := some 5, reconMl := some 2 } ]
    dose := { mg := none, iu := some 10 } }

/-- C7: with a positive blend concentration, no positive mass input, and the
dose given as a positive unit value u, the computed draw in syringe units is
exactly u (IU → mass → IU round-trips); on the §8 example with concentration
2.5 mg/mL and 10 IU the dose mass is 0.25 mg, the draw volume 0.1 mL and the
draw 10 units. -/
theorem unit_dose_round_trip :
    (∀ c : CalcState, 0 < mgPerMl c → doseMg c ≤ 0 → 0 < doseIU c →
      iuFromMg c = doseIU c) ∧
    totalDoseMg exampleUnitDose = 1/4 ∧
    drawMlFromMg exampleUnitDose = 1/10 ∧
    iuFromMg exampleUnitDose = 10 := by
  refine ⟨fun c hC hmg hiu => ?_, ?_, ?_, ?_⟩
  · have hT : totalDoseMg c = doseIU c / 100 * mgPerMl c := by
      unfold totalDoseMg
      rw [if_neg (not_lt.mpr hmg), if_pos hiu]
    have hne : mgPerMl c ≠ 0 := ne_of_gt hC
    unfold iuFromMg drawMlFromMg
    rw [if_pos hC, hT]
    field_simp
    ring
  · norm_num [totalDoseMg, doseMg, doseIU, mgPerMl, totalVialMg, totalReconMl,
      pepN, jsNum, exampleUnitDose]
  · norm_num [drawMlFromMg, totalDoseMg, doseMg, doseIU, mgPerMl, totalVialMg,
      totalReconMl, pepN, jsNum, exampleUnitDose]
  · norm_num [iuFromMg, drawMlFromMg, totalDoseMg, doseMg, doseIU, mgPerMl,
      totalVialMg, totalReconMl, pepN, jsNum, exampleUnitDose]

/-- Witness for C7: the universal round-trip applied to the unit-dose
example state. -/
theorem unit_dose_round_trip_w : iuFromMg exampleUnitDose = doseIU exampleUnitDose :=
  unit_dose_round_trip.1 exampleUnitDose
    (by norm_num [mgPerMl, totalVialMg, totalReconMl, pepN, jsNum, exampleUnitDose])
    (by norm_num [doseMg, jsNum, exampleUnitDose])
    (by norm_num [doseIU, jsNum, exampleUnitDose])

/-! ### Calculator component lifecycle (`addPeptide` / `removePeptide`) -/

/-- `const addPeptide = () => setCalc(c => c.peptides.length >= 4 ? c : ({ ...c, peptides: [...c.peptides, { id: `p N+1`, name: "", vialMg: "", reconMl: "" }] }))`
where the new id is the string "p" followed by `c.peptides.length + 1`. -/
def addPeptide (c : CalcState) : CalcState :=
  if c.peptides.length ≥ 4 then c
  else { c with peptides := c.peptides ++
          [{ id := "p" ++ toString (c.peptides.length + 1), name := "",
             vialMg := none, reconMl := none }] }

/-- `const removePeptide = (id) => setCalc(c => ({ ...c, peptides: c.peptides.filter(p => p.id !== id) }))` -/
def removePeptide (i : String) (c : CalcState) : CalcState :=
  { c with peptides := c.peptides.filter fun p => p.id != i }

/-- The initial calculator state baked into `loadCalc`:
one row `{ id: "p1", name: "Tesamorelin", vialMg: "5", reconMl: "2.0" }`
and an empty dose. -/
def defaultCalc : CalcState :=
  { peptides := [{ id := "p1", name := "Tesamorelin", vialMg := some 5, reconMl := some 2 }]
    dose := { mg := none, iu := none } }

/-- A user interaction with the component list. -/
inductive CalcOp where
  | add : CalcOp
  | remove : String → CalcOp

/-- Run one list operation. -/
def applyOp (c : CalcState) : CalcOp → CalcState
  | CalcOp.add => addPeptide c
  | CalcOp.remove i => removePeptide i c

/-- Run a sequence of list operations from a starting state. -/
def applyOps (c : CalcState) (ops : List CalcOp) : CalcState :=
  ops.foldl applyOp c

/-- C9 (refuting the uniqueness invariant as implemented): starting from the
default state, the sequence addPeptide; removePeptide "p1"; addPeptide leaves
two components that both carry the id "p2", because a fresh id is generated
as "p" + (length + 1) and lengths repeat after a removal. -/
theorem addPeptide_duplicate_id :
    ((applyOps defaultCalc [CalcOp.add, CalcOp.remove "p1", CalcOp.add]).peptides.map
      (fun p => p.id)) = ["p2", "p2"] ∧
    ¬ ((applyOps defaultCalc [CalcOp.add, CalcOp.remove "p1", CalcOp.add]).peptides.map
      (fun p => p.id)).Nodup := by
  decide

/-! ### Calendar dates and the every-other-day rule -/

/-- A calendar date: year, human month (1..12) and day of month. The code
only ever reads the year/month/day components of its `Date` values, so this
triple is the whole state a date contributes. -/
structure CDate where
  year : Int
  month : Int
  day : Int
deriving DecidableEq

/-- Day number of a Gregorian calendar date relative to 1970-01-01
(the civil-from-days algorithm used by JavaScript's `Date.UTC`). -/
def civilDays (d : CDate) : Int :=
  let y := if d.month ≤ 2 then d.year - 1 else d.year
  let era := Int.fdiv y 400
  let yoe := y - era * 400
  let mp := Int.emod (d.month + 9) 12
  let doy := Int.fdiv (153 * mp + 2) 5 + d.day - 1
  let doe := yoe * 365 + Int.fdiv yoe 4 - Int.fdiv yoe 100 + doy
  era * 146097 + doe - 719468

/-- `Date.UTC(y, m, d)` for a pure calendar date: milliseconds of its UTC
midnight since the epoch. -/
def dateUTCms (d : CDate) : Int := 86400000 * civilDays d

/-- `date.getDay()`: 0 = Sunday … 6 = Saturday (1970-01-01 was a Thursday). -/
def getDay (d : CDate) : Int := Int.emod (civilDays d + 4) 7

/-- `isEODDue(startIso, date)` from `App.jsx` lines 85-89:
`diff = Math.floor((Date.UTC(date components) - Date.UTC(start components)) / 86400000)`
and due when `diff % 2 === 0` (JS `%` is the truncated remainder; the
division is exact, so `Math.floor` is the integer quotient `fdiv`). -/
def isEODDue (start d : CDate) : Bool :=
  let diff := Int.fdiv (dateUTCms d - dateUTCms start) 86400000
  diff.tmod 2 == 0

/-- C2: an EveryOtherDay schedule is due exactly on the days whose whole-day
offset from the start date is divisible by 2, on both sides of the start
date; with start 2024-01-01 it is due on 2024-01-01 and 2024-01-03, not on
2024-01-02, and before the start it is due on 2023-12-30 but not 2023-12-31. -/
theorem isEODDue_parity :
    (∀ start d : CDate,
      isEODDue start d = true ↔ (2 : Int) ∣ (civilDays d - civilDays start)) ∧
    isEODDue ⟨2024, 1, 1⟩ ⟨2024, 1, 1⟩ = true ∧
    isEODDue ⟨2024, 1, 1⟩ ⟨2024, 1, 2⟩ = false ∧
    isEODDue ⟨2024, 1, 1⟩ ⟨2024, 1, 3⟩ = true ∧
    isEODDue ⟨2024, 1, 1⟩ ⟨2023, 12, 31⟩ = false ∧
    isEODDue ⟨2024, 1, 1⟩ ⟨2023, 12, 30⟩ = true := by
  refine ⟨fun start d => ?_, by decide, by decide, by decide, by decide, by decide⟩
  unfold isEODDue dateUTCms
  have hdiff : Int.fdiv (86400000 * civilDays d - 86400000 * civilDays start) 86400000
      = civilDays d - civilDays start := by
    rw [← mul_sub]
    exact Int.mul_fdiv_cancel_left _ (by norm_num)
  rw [hdiff, beq_iff_eq]
  exact ⟨fun h => Int.dvd_of_tmod_eq_zero h, fun h => Int.tmod_eq_zero_of_dvd h⟩

/-- Witness for C2: instantiating the parity equivalence at the start date
2024-01-01 and reference date 2024-01-05 (offset 4). -/
theorem isEODDue_parity_w : isEODDue ⟨2024, 1, 1⟩ ⟨2024, 1, 5⟩ = true :=
  (isEODDue_parity.1 ⟨2024, 1, 1⟩ ⟨2024, 1, 5⟩).mpr (by decide)

/-! ### Fixed-pattern schedule resolution (`patternToDays`, `isAlertDueToday`) -/

/-- ASCII `a-z` / `A-Z` (what `[^a-z]` with the `i` regex flag excludes). -/
def isAsciiLetter (c : Char) : Bool :=
  ('a' ≤ c && c ≤ 'z') || ('A' ≤ c && c ≤ 'Z')

/-- A regex `\w` character: ASCII letter, digit or underscore. -/
def isWordChar (c : Char) : Bool :=
  isAsciiLetter c || ('0' ≤ c && c ≤ '9') || c == '_'

/-- `p.split(/[^\w]+/).filter(Boolean)`: the maximal runs of `\w`
characters of the string (splitting on runs of non-word characters and
dropping the empty fragments at the ends). -/
def splitTokensAux : List Char → List Char → List String
  | acc, [] => if acc.isEmpty then [] else [String.mk acc.reverse]
  | acc, c :: rest =>
    if isWordChar c then splitTokensAux (c :: acc) rest
    else (if acc.isEmpty then [] else [String.mk acc.reverse]) ++ splitTokensAux [] rest

/-- Tokenize a pattern string on runs of non-word characters. -/
def splitTokens (s : List Char) : List String := splitTokensAux [] s

/-- The abbreviation table
`{Su:0,Sun:0,M:1,Mon:1,Tu:2,Tue:2,W:3,Wed:3,Th:4,Thu:4,F:5,Fri:5,Sa:6,Sat:6}`. -/
def dayTable : List (String × Int) :=
  [("Su", 0), ("Sun", 0), ("M", 1), ("Mon", 1), ("Tu", 2), ("Tue", 2),
   ("W", 3), ("Wed", 3), ("Th", 4), ("Thu", 4), ("F", 5), ("Fri", 5),
   ("Sa", 6), ("Sat", 6)]

/-- `map[t]`: look a token up in the abbreviation table; any other key gives
`undefined` (`none`). (Property lookups that hit `Object.prototype` members
yield functions or objects, which the follow-up `n >= 0` filter also drops,
so `none` models them faithfully.) -/
def dayMap (t : String) : Option Int := dayTable.lookup t

/-- `patternToDays` from `App.jsx` lines 74-84: the named patterns, then the
token fallback `tokens.map(t => map[t]).filter(n => n >= 0)` (an
unrecognized token maps to `undefined`, and `undefined >= 0` is false, so it
is dropped). -/
def patternToDays (p : String) : List Int :=
  if p = "" || p = "Daily" then [0, 1, 2, 3, 4, 5, 6]
  else if p = "MTWThF" then [1, 2, 3, 4, 5]
  else if p = "MWF" then [1, 3, 5]
  else if p = "TuThSa" then [2, 4, 6]
  else if p = "Sat" then [6]
  else if p = "Sun" then [0]
  else ((splitTokens p.toList).map dayMap).filterMap fun o =>
    match o with
    | some n => if n ≥ 0 then some n else none
    | none => none

/-- An alert row `{ id, name, dose, note, pattern, start }`. -/
structure Alert where
  id : String
  name : String
  dose : String
  note : String
  pattern : String
  start : CDate

/-- `const isAlertDueToday = (a, d) => a.pattern === "EOD" ? isEODDue(a.start, d) : patternToDays(a.pattern).includes(d.getDay())` -/
def isAlertDueToday (a : Alert) (d : CDate) : Bool :=
  if a.pattern == "EOD" then isEODDue a.start d
  else (patternToDays a.pattern).contains (getDay d)

/-- The default "Super Human Blend" alert, whose pattern is "MWF"
(its start date is irrelevant for a non-EOD pattern). -/
def shbAlert : Alert :=
  { id := "shb", name := "Super Human Blend", dose := "50 IU", note := "post-WO",
    pattern := "MWF", start := ⟨2024, 1, 1⟩ }

/-- C3: "MWF" resolves to Mon/Wed/Fri and "TuThSa" to Tue/Thu/Sat; for every
non-EOD alert, being due on a date is exactly membership of the date's
weekday in the resolved set, so the MWF alert is never due on a Tuesday
(weekday 2) and always due on a Wednesday (weekday 3). -/
theorem patternToDays_fixed_sets :
    patternToDays "MWF" = [1, 3, 5] ∧
    patternToDays "TuThSa" = [2, 4, 6] ∧
    (∀ (a : Alert) (d : CDate), a.pattern ≠ "EOD" →
      isAlertDueToday a d = (patternToDays a.pattern).contains (getDay d)) ∧
    (∀ d : CDate, getDay d = 2 → isAlertDueToday shbAlert d = false) ∧
    (∀ d : CDate, getDay d = 3 → isAlertDueToday shbAlert d = true) := by
  refine ⟨by decide, by decide, fun a d h => ?_, fun d hd => ?_, fun d hd => ?_⟩
  · unfold isAlertDueToday
    rw [if_neg (by simpa using h)]
  · unfold isAlertDueToday
    rw [if_neg (by decide), hd]
    decide
  · unfold isAlertDueToday
    rw [if_neg (by decide), hd]
    decide

/-- Witness for C3: 2024-01-02 was a Tuesday and 2024-01-03 a Wednesday;
the MWF alert is not due on the former and due on the latter. -/
theorem patternToDays_fixed_sets_w :
    isAlertDueToday shbAlert ⟨2024, 1, 2⟩ = false ∧
    isAlertDueToday shbAlert ⟨2024, 1, 3⟩ = true :=
  ⟨patternToDays_fixed_sets.2.2.2.1 ⟨2024, 1, 2⟩ (by decide),
   patternToDays_fixed_sets.2.2.2.2 ⟨2024, 1, 3⟩ (by decide)⟩

/-- The fixed-pattern fallback as the spec words it: tokenize on runs of
non-word characters, map each token through the weekday abbreviation table,
drop unrecognized tokens, and return the resulting set. Stated separately
so the code's fallback branch can be compared against it. -/
def specFallbackDays (p : String) : List Int :=
  (splitTokens p.toList).filterMap dayMap

/-- Every entry of the abbreviation table is a weekday number `0..6`,
in particular non-negative. -/
theorem dayMap_nonneg (t : String) (n : Int) (h : dayMap t = some n) : 0 ≤ n := by
  unfold dayMap at h
  obtain ⟨l₁, l₂, heq, -⟩ := List.lookup_eq_some_iff.mp h
  have hm : (t, n) ∈ dayTable := heq ▸ List.mem_append_right l₁ (List.mem_cons_self _ _)
  have hall : ∀ q ∈ dayTable, 0 ≤ q.2 := by decide
  exact hall _ hm

/-- Mapping through the table and then dropping non-numbers is the same as
filter-mapping through the table directly. -/
theorem map_filter_eq_filterMap (l : List String) :
    (l.map dayMap).filterMap (fun o =>
      match o with
      | some n => if n ≥ 0 then some n else none
      | none => none) = l.filterMap dayMap := by
  induction l with
  | nil => rfl
  | cons t l ih =>
    simp only [List.map_cons, List.filterMap_cons]
    cases h : dayMap t with
    | none => simpa using ih
    | some n =>
      have hn := dayMap_nonneg t n h
      simp only [if_pos hn, ih]

/-- C4: for a non-empty pattern string that is none of the named tokens, the
resolver returns exactly the spec's tokenize/map/drop fallback set, and that
set is empty when no token is recognized. -/
theorem patternToDays_fallback (p : String)
    (hne : p ≠ "")
    (hnamed : p ∉ (["Daily", "MTWThF", "MWF", "TuThSa", "Sat", "Sun"] : List String)) :
    patternToDays p = specFallbackDays p ∧
    ((∀ t ∈ splitTokens p.toList, dayMap t = none) → patternToDays p = []) := by
  simp only [List.mem_cons, List.not_mem_nil, or_false, not_or] at hnamed
  obtain ⟨h1, h2, h3, h4, h5, h6⟩ := hnamed
  have hfall : patternToDays p =
      ((splitTokens p.toList).map dayMap).filterMap fun o =>
        match o with
        | some n => if n ≥ 0 then some n else none
        | none => none := by
    unfold patternToDays
    rw [if_neg (by simp [hne, h1]), if_neg h2, if_neg h3, if_neg h4, if_neg h5, if_neg h6]
  constructor
  · rw [hfall, map_filter_eq_filterMap, specFallbackDays]
  · intro hnone
    rw [hfall, map_filter_eq_filterMap]
    exact List.filterMap_eq_nil_iff.mpr hnone

/-- Witness for C4: the pattern "XYZ" is unrecognized, its single token maps
to nothing, and the resolved set is empty (and equals the spec fallback). -/
theorem patternToDays_fallback_w :
    patternToDays "XYZ" = specFallbackDays "XYZ" ∧ patternToDays "XYZ" = [] :=
  ⟨(patternToDays_fallback "XYZ" (by decide) (by decide)).1,
   (patternToDays_fallback "XYZ" (by decide) (by decide)).2 (by decide)⟩

/-! ### Free-text plan parsing (`normalizePlan` / `extractDaysFromPlan`,
`App.jsx` lines 1059-1079) -/

/-- `t.replace(/(^|[^a-z])X(?=[^a-z])/gi, "$1REPL")` for a single letter X:
replace every occurrence of the letter (case-insensitively) that is at the
start or preceded by a non-letter, and followed by a non-letter (the
lookahead requires a following character, so a trailing letter never
matches). Matches are located in the original string; because a match
consumes the preceding character and the letter itself, and a letter
can never serve two adjacent matches, a left-to-right scan with a
"previous char was a letter" flag is exactly the regex's behavior. -/
def replaceIsolated (target : Char) (repl : List Char) : Bool → List Char → List Char
  | _, [] => []
  | prevL, c :: rest =>
    if c.toLower == target && !prevL &&
        (match rest with | [] => false | c2 :: _ => !isAsciiLetter c2) then
      repl ++ replaceIsolated target repl true rest
    else
      c :: replaceIsolated target repl (isAsciiLetter c) rest

/-- `t.replace(/\btu\b/gi, "Tue")`: "tu" with word boundaries on both sides
becomes "Tue". -/
def replaceTu : Bool → List Char → List Char
  | _, [] => []
  | _, [c] => [c]
  | prevW, c :: c2 :: rest2 =>
    if c.toLower == 't' && c2.toLower == 'u' && !prevW &&
        (match rest2 with | [] => true | c3 :: _ => !isWordChar c3) then
      'T' :: 'u' :: 'e' :: replaceTu true rest2
    else c :: replaceTu (isWordChar c) (c2 :: rest2)

/-- `t.replace(/\bth(u|)\b/gi, "Thu")`: "thu" or "th" with word boundaries
becomes "Thu" (the alternation tries "thu" first; "thur" matches neither
branch because the boundary after fails both ways). -/
def replaceThu : Bool → List Char → List Char
  | _, [] => []
  | _, [c] => [c]
  | prevW, [c, c2] =>
    if c.toLower == 't' && c2.toLower == 'h' && !prevW then ['T', 'h', 'u']
    else c :: replaceThu (isWordChar c) [c2]
  | prevW, c :: c2 :: c3 :: rest3 =>
    if c.toLower == 't' && c2.toLower == 'h' && !prevW then
      if c3.toLower == 'u' &&
          (match rest3 with | [] => true | c4 :: _ => !isWordChar c4) then
        'T' :: 'h' :: 'u' :: replaceThu true rest3
      else if !isWordChar c3 then
        'T' :: 'h' :: 'u' :: replaceThu true (c3 :: rest3)
      else
        c :: replaceThu (isWordChar c) (c2 :: c3 :: rest3)
    else c :: replaceThu (isWordChar c) (c2 :: c3 :: rest3)

/-- `t.replace(/[\/\\|]/g, " ")`: slash, backslash and pipe become spaces. -/
def replaceSeps (s : List Char) : List Char :=
  s.map fun c => if c == '/' || c == '\\' || c == '|' then ' ' else c

/-- The source file stores its dash alternatives as the literal three-char
sequences `â`,`€`,`“` and `â`,`€`,`”` (a mojibake en/em dash); each
occurrence becomes a plain hyphen. A genuine single-character en/em dash
matches neither alternative and passes through. -/
def replaceBadDash : List Char → List Char
  | 'â' :: '€' :: '“' :: rest => '-' :: replaceBadDash rest
  | 'â' :: '€' :: '”' :: rest => '-' :: replaceBadDash rest
  | c :: rest => c :: replaceBadDash rest
  | [] => []

/-- `normalizePlan(plan)`: pad with spaces, replace isolated m/w/f with full
day names, then tu/th(u), then separators, then the mojibake dashes. -/
def normalizePlan (plan : String) : List Char :=
  let t0 := ' ' :: plan.toList ++ [' ']
  let t1 := replaceIsolated 'm' ['M', 'o', 'n'] false t0
  let t2 := replaceIsolated 'w' ['W', 'e', 'd'] false t1
  let t3 := replaceIsolated 'f' ['F', 'r', 'i'] false t2
  let t4 := replaceThu false (replaceTu false t3)
  replaceBadDash (replaceSeps t4)

/-- Try to read `pat` (case-insensitively) at the head of `s`; on success
return the remaining characters. -/
def matchPatCI : List Char → List Char → Option (List Char)
  | [], s => some s
  | _ :: _, [] => none
  | p :: ps, c :: cs => if c.toLower == p then matchPatCI ps cs else none

/-- `new RegExp("\\b" + p + "\\b", "i").test(t)` for a pattern `p` made of
word characters: `pat` occurs somewhere in `s` with a non-word character (or
an end of the string) on each side. -/
def hasBounded (pat : List Char) : Bool → List Char → Bool
  | _, [] => false
  | prevW, c :: rest =>
    (!prevW &&
      (match matchPatCI pat (c :: rest) with
       | some [] => true
       | some (a :: _) => !isWordChar a
       | none => false)) ||
    hasBounded pat (isWordChar c) rest

/-- `extractDaysFromPlan(plan)`: lowercase the normalized plan, then collect
each weekday any of whose spellings occurs with word boundaries, in the
fixed Sun..Sat test order (the insertion order of the JS `Set`). -/
def extractDaysFromPlan (plan : String) : List String :=
  let t := (normalizePlan plan).map Char.toLower
  let addIf : String → List (List Char) → List String := fun day pats =>
    if pats.any (fun p => hasBounded p false t) then [day] else []
  addIf "Sun" ["sun".toList, "su".toList] ++ addIf "Mon" ["mon".toList] ++
  addIf "Tue" ["tue".toList] ++ addIf "Wed" ["wed".toList] ++
  addIf "Thu" ["thu".toList, "thur".toList] ++ addIf "Fri" ["fri".toList] ++
  addIf "Sat" ["sat".toList, "sa".toList]

/-- C8: the default SHB plan string resolves to exactly Mon, Wed, Fri — in
particular at least those three: the isolated letters M, W, F are expanded
to the full day names by normalization and then matched with word
boundaries. -/
theorem extractDays_mwf_plan :
    extractDaysFromPlan "M-W-F after workout — 50 IU" = ["Mon", "Wed", "Fri"] ∧
    "Mon" ∈ extractDaysFromPlan "M-W-F after workout — 50 IU" ∧
    "Wed" ∈ extractDaysFromPlan "M-W-F after workout — 50 IU" ∧
    "Fri" ∈ extractDaysFromPlan "M-W-F after workout — 50 IU" := by
  decide

/-! ### Persistence (`load`, `App.jsx` line 25 / `part_001` lines 21-28) -/

/-- A JSON value as stored by the persistence layer. -/
inductive JVal where
  | jnull : JVal
  | jbool : Bool → JVal
  | jnum : ℚ → JVal
  | jstr : String → JVal
  | jarr : List JVal → JVal
  | jobj : List (String × JVal) → JVal

/-- `const load = (k, fallback) => { try { const v = JSON.parse(localStorage.getItem(k)); return v ?? fallback; } catch { return fallback; } }`.
The store is a key to optional-string map (`getItem` gives `null` for a
missing key, which `JSON.parse` coerces to the string "null" and parses to
the JSON null, so `?? fallback` yields the fallback); `parse s = none`
models `JSON.parse` throwing on a corrupt payload, caught by the
`try`/`catch`. -/
def load (parse : String → Option JVal) (store : String → Option String)
    (k : String) (fallback : JVal) : JVal :=
  match store k with
  | none => fallback
  | some s =>
    match parse s with
    | none => fallback
    | some JVal.jnull => fallback
    | some v => v

/-- C10: for every key and caller-supplied fallback, `load` returns the
fallback when the key is absent from the store, and also when the stored
payload fails to parse; a parse failure is never propagated. -/
theorem load_fallback (parse : String → Option JVal) (store : String → Option String)
    (k : String) (fallback : JVal) :
    (store k = none → load parse store k fallback = fallback) ∧
    (∀ s, store k = some s → parse s = none → load parse store k fallback = fallback) := by
  constructor
  · intro h; unfold load; rw [h]
  · intro s hs hp
    unfold load
    rw [hs]
    show (match parse s with
      | none => fallback
      | some JVal.jnull => fallback
      | some v => v) = fallback
    rw [hp]

/-- A parse function that rejects every payload: models a store whose
content is corrupt. -/
def rejectAll : String → Option JVal := fun _ => none

/-- A store holding an unparseable payload under every key. -/
def corruptStore : String → Option String := fun _ => some "corrupt"

/-- Witness for C10: loading the KPI key from a corrupt store yields
exactly the supplied fallback. -/
theorem load_fallback_w :
    load rejectAll corruptStore "mpr-kpis" (JVal.jstr "fb") = JVal.jstr "fb" :=
  (load_fallback rejectAll corruptStore "mpr-kpis" (JVal.jstr "fb")).2 "corrupt" rfl rfl
